import Mathlib

/-! The single-point C2P tester, `src/pgen/c2p_debugger.cpp`

A shallow embedding of `RunTest<EOSPolicy>` and `ProblemGenerator::UserProblem`.

* C++ `Real` values are exact rationals; the tester only copies them.
* A C array local to `RunTest` is a slot map `Nat → Option Real`; `none` is a slot
  that was never written. The capacities `NCONS`, `NMAG`, `NSPMETRIC`, `NPRIM` come from
  headers that are not among the sources and are not modelled.
* What the tester does to the outside world (the solver call, `Kokkos::printf`,
  `SetADMVariables`) is recorded, in program order, as a list of events.
* The collaborators that are only called here (`Primitive::GetDeterminant`,
  `Primitive::InvertMatrix`, the `ConToPrim` member of the solver) are parameters.
-/

namespace AthenaK

/-- The scalar type `Real` of the code, read as an exact rational. -/
abbrev Real := ℚ

/-- A C array of `Real`: slot index to contents, `none` for a slot never written. -/
abbrev RealArray := Nat → Option Real

/-- A local array right after its declaration (`Real a[N];`): nothing written yet. -/
def uninit : RealArray := fun _ => none

/-- The assignment `a[i] = v`. -/
def RealArray.set (a : RealArray) (i : Nat) (v : Real) : RealArray :=
  fun j => if j = i then some v else a j

/-! ## Index constants -/

/-- Modelled from the spec: the conserved-vector indices come from a header that is not
among the sources; the spec (data model, ConservedState) fixes the order
D, Sx, Sy, Sz, tau, Y_1..Y_k. -/
def CDN : Nat := 0

/-- Modelled from the spec: see `CDN`. -/
def CSX : Nat := 1

/-- Modelled from the spec: see `CDN`. -/
def CSY : Nat := 2

/-- Modelled from the spec: see `CDN`. -/
def CSZ : Nat := 3

/-- Modelled from the spec: see `CDN`. -/
def CTA : Nat := 4

/-- Modelled from the spec: see `CDN`; the scalars start right after tau. -/
def CYD : Nat := 5

/-- Modelled from the spec: the magnetic-field indices are not among the sources; the
spec (data model, MagneticField) gives the order Bx, By, Bz. -/
def IBX : Nat := 0

/-- Modelled from the spec: see `IBX`. -/
def IBY : Nat := 1

/-- Modelled from the spec: see `IBX`. -/
def IBZ : Nat := 2

/-- Modelled from the spec: the metric indices are not among the sources; the spec
(data model, SpatialMetric) gives the order g11, g12, g13, g22, g23, g33. -/
def S11 : Nat := 0

/-- Modelled from the spec: see `S11`. -/
def S12 : Nat := 1

/-- Modelled from the spec: see `S11`. -/
def S13 : Nat := 2

/-- Modelled from the spec: see `S11`. -/
def S22 : Nat := 3

/-- Modelled from the spec: see `S11`. -/
def S23 : Nat := 4

/-- Modelled from the spec: see `S11`. -/
def S33 : Nat := 5

/-! ## Types the tester uses -/

namespace Primitive

/-- Modelled from the spec: the enumeration `Primitive::Error` is not among the sources.
The code names `SUCCESS` only; the other outcomes are those of the spec (solver design,
step 6). -/
inductive Error where
  | SUCCESS
  | NoConverge
  | NegativeDensity
  | NegativePressure
  | DegenerateMetric
  deriving DecidableEq, Repr

/-- The record `Primitive::SolverResult`, with the four fields the tester reads. -/
structure SolverResult where
  error : Error
  cons_floor : Bool
  prim_floor : Bool
  cons_adjusted : Bool
  deriving DecidableEq, Repr

/-- The log conventions of the tabulated policies. -/
inductive LogPolicy where
  | NQTLogs
  | NormalLogs
  deriving DecidableEq, Repr

/-- The EOS policies `RunTest` is instantiated with. -/
inductive EOSPolicy where
  | IdealGas
  | PiecewisePolytrope
  | EOSCompOSE (logs : LogPolicy)
  | EOSHybrid (logs : LogPolicy)
  deriving DecidableEq, Repr

/-- Everything one call `ps.ConToPrim(prim_pt, cons_pt, Bu, g3d, g3u)` leaves behind: the
primitive array it filled, the conserved array (which it may adjust in place) and the
returned record. -/
structure C2POut where
  prim_pt : RealArray
  cons_pt : RealArray
  result : SolverResult

/-- The solver object `ps`. Its member `ConToPrim` is not among the sources: it is any
function of `cons_pt`, `Bu`, `g3d`, `g3u` (the array `prim_pt` goes in unwritten). -/
structure PrimitiveSolver where
  ConToPrim : RealArray → RealArray → RealArray → RealArray → C2POut

/-- Modelled from the spec: the free functions `Primitive::GetDeterminant` and
`Primitive::InvertMatrix` are not among the sources. The spec (metric algebra) has them
pure, with no side effect, so each is a function of what it is given;
`InvertMatrix g3d detg` is the array `g3u` after the call `InvertMatrix(g3u, g3d, detg)`. -/
structure MetricAlgebra where
  GetDeterminant : RealArray → Real
  InvertMatrix : RealArray → Real → RealArray

end Primitive

open Primitive

/-- The enumeration `DynGRMHD_EOS`. Its declaration is not among the sources: the four
named enumerators are those the code compares with, `other` is any further value. -/
inductive DynGRMHD_EOS where
  | eos_ideal
  | eos_compose
  | eos_hybrid
  | eos_piecewise_poly
  | other (code : Nat)
  deriving DecidableEq, Repr

/-- Modelled from the spec: `ParameterInput` is not among the sources; it is the
configuration source of the spec (external interfaces). `GetReal` is total, as its use
in the code is; a boolean entry may be absent. -/
structure ParameterInput where
  reals : String → String → Real
  bools : String → String → Option Bool

/-- The call `pin->GetReal(block, name)`. -/
def ParameterInput.GetReal (pin : ParameterInput) (block name : String) : Real :=
  pin.reals block name

/-- Modelled from the spec: `pin->GetOrAddBoolean(block, name, def_value)` returns the
entry when there is one and otherwise adds `def_value` as the entry and returns it. The
second component is the parameter input after the call. -/
def ParameterInput.GetOrAddBoolean (pin : ParameterInput) (block name : String)
    (def_value : Bool) : Bool × ParameterInput :=
  match pin.bools block name with
  | some b => (b, pin)
  | none =>
    (def_value,
      { pin with
        bools := fun b n => if b = block ∧ n = name then some def_value else pin.bools b n })

/-- The member `pmhd` of the pack: the number of passive scalars, a C `int`. -/
structure MHD where
  nscalars : Int

/-- The member `pdyngr` of the pack: the configured policy, and the solver `eos.ps`
reached when `pdyngr` is cast to `DynGRMHDPS<EOSPolicy, ResetFloor>`. -/
structure DynGRMHD where
  eos_policy : DynGRMHD_EOS
  ps : EOSPolicy → PrimitiveSolver

/-- The mesh block pack, with the two members the tester reads. -/
structure MeshBlockPack where
  pmhd : MHD
  pdyngr : DynGRMHD

/-- The mesh. -/
structure Mesh where
  pmb_pack : MeshBlockPack

/-- What the tester does to its surroundings, in program order. -/
inductive Event where
  | ConToPrim (policy : EOSPolicy) (cons_pt Bu g3d g3u : RealArray)
  | printf (text : String)
  | SetADMVariables

/-! ## `Kokkos::printf` with `%d` conversions -/

/-- A `bool` passed through the variadic call: promoted to `int`. -/
def boolToInt (b : Bool) : Int := if b then 1 else 0

/-- Expansion of a format: `pending` tells that the character before was `%`. Each
`%d` takes the next argument, written in decimal. -/
def expandFormat : Bool → List Char → List Int → List Char
  | pending, [], _ => if pending then ['%'] else []
  | false, c :: cs, args =>
    if c = '%' then expandFormat true cs args else c :: expandFormat false cs args
  | true, c :: cs, args =>
    if c = 'd' then
      match args with
      | a :: rest => (toString a).data ++ expandFormat false cs rest
      | [] => expandFormat false cs []
    else '%' :: c :: expandFormat false cs args

/-- The text `Kokkos::printf(format, args...)` writes. -/
def Kokkos.printf (format : String) (args : List Int) : String :=
  String.mk (expandFormat false format.data args)

/-! ## `RunTest` -/

/-- The loop of lines 50-54, from `cons_pt` and `cons_pt_old` as they stand before it:
for `s` from `0` while `s < nscal_`, both arrays get the value of the key `DY` followed
by `s` in slot `CYD + s`. -/
def scalarLoop (pin : ParameterInput) (nscal_ : Int) (arrays : RealArray × RealArray) :
    RealArray × RealArray :=
  (List.range nscal_.toNat).foldl
    (fun acc s =>
      let v := pin.GetReal "problem" ("DY" ++ toString s)
      (acc.1.set (CYD + s) v, acc.2.set (CYD + s) v))
    arrays

/-- Lines 43-54: `cons_pt` and `cons_pt_old` as they stand before the solver is called. -/
def readCons (pin : ParameterInput) (nscal_ : Int) : RealArray × RealArray :=
  let d := pin.GetReal "problem" "D"
  let sx := pin.GetReal "problem" "Sx"
  let sy := pin.GetReal "problem" "Sy"
  let sz := pin.GetReal "problem" "Sz"
  let tau := pin.GetReal "problem" "tau"
  let cons_pt_old := ((((uninit.set CDN d).set CSX sx).set CSY sy).set CSZ sz).set CTA tau
  let cons_pt := ((((uninit.set CDN d).set CSX sx).set CSY sy).set CSZ sz).set CTA tau
  scalarLoop pin nscal_ (cons_pt, cons_pt_old)

/-- Lines 56-59: the array `Bu`. -/
def readBu (pin : ParameterInput) : RealArray :=
  ((uninit.set IBX (pin.GetReal "problem" "Bx")).set IBY (pin.GetReal "problem" "By")).set
    IBZ (pin.GetReal "problem" "Bz")

/-- Lines 61-67: the array `g3d`. -/
def readMetric (pin : ParameterInput) : RealArray :=
  (((((uninit.set S11 (pin.GetReal "problem" "gxx")).set S12 (pin.GetReal "problem" "gxy")).set
    S13 (pin.GetReal "problem" "gxz")).set S22 (pin.GetReal "problem" "gyy")).set
    S23 (pin.GetReal "problem" "gyz")).set S33 (pin.GetReal "problem" "gzz")

/-- Lines 79-91: the text printed for a returned record. -/
def report (result : SolverResult) : String :=
  if result.error ≠ Error.SUCCESS then
    Kokkos.printf
      "The C2P failed!\n  cons floor: %d\n  prim floor: %d\n  cons adjusted: %d\n"
      [boolToInt result.cons_floor, boolToInt result.prim_floor,
        boolToInt result.cons_adjusted]
  else
    Kokkos.printf
      "The C2P succeeded!\n  cons floor: %d\n  prim floor: %d\n  cons adjusted: %d\n"
      [boolToInt result.cons_floor, boolToInt result.prim_floor,
        boolToInt result.cons_adjusted]

/-- The locals of `RunTest` when it returns (`Bu`, `g3d`, `g3u` as they were handed to the
solver), and the events of the call. -/
structure RunTestEnd where
  cons_pt : RealArray
  cons_pt_old : RealArray
  Bu : RealArray
  g3d : RealArray
  detg : Real
  g3u : RealArray
  prim_pt : RealArray
  result : SolverResult
  events : List Event

/-- The function template `RunTest<EOSPolicy>(pin, pmy_mesh_)`. -/
def RunTest (alg : MetricAlgebra) (policy : EOSPolicy) (pin : ParameterInput)
    (pmy_mesh_ : Mesh) : RunTestEnd :=
  let pmbp := pmy_mesh_.pmb_pack
  let ps := pmbp.pdyngr.ps policy
  let nscal_ := pmbp.pmhd.nscalars
  let cons := readCons pin nscal_
  let cons_pt := cons.1
  let cons_pt_old := cons.2
  let Bu := readBu pin
  let g3d := readMetric pin
  let detg := alg.GetDeterminant g3d
  let g3u := alg.InvertMatrix g3d detg
  let out := ps.ConToPrim cons_pt Bu g3d g3u
  { cons_pt := out.cons_pt
    cons_pt_old := cons_pt_old
    Bu := Bu
    g3d := g3d
    detg := detg
    g3u := g3u
    prim_pt := out.prim_pt
    result := out.result
    events := [Event.ConToPrim policy cons_pt Bu g3d g3u, Event.printf (report out.result)] }

/-! ## `ProblemGenerator::UserProblem` -/

/-- The member function `ProblemGenerator::UserProblem(pin, restart)`: the parameter
input after the call and the events of the call. -/
def UserProblem (alg : MetricAlgebra) (pmy_mesh_ : Mesh) (pin : ParameterInput)
    (_restart : Bool) : ParameterInput × List Event :=
  let pmbp := pmy_mesh_.pmb_pack
  let eos_policy := pmbp.pdyngr.eos_policy
  let run : ParameterInput × List Event :=
    if eos_policy = DynGRMHD_EOS.eos_ideal then
      (pin, (RunTest alg EOSPolicy.IdealGas pin pmy_mesh_).events)
    else if eos_policy = DynGRMHD_EOS.eos_compose then
      let use_NQT := pin.GetOrAddBoolean "mhd" "use_NQT" false
      if use_NQT.1 then
        (use_NQT.2, (RunTest alg (EOSPolicy.EOSCompOSE LogPolicy.NQTLogs) use_NQT.2 pmy_mesh_).events)
      else
        (use_NQT.2,
          (RunTest alg (EOSPolicy.EOSCompOSE LogPolicy.NormalLogs) use_NQT.2 pmy_mesh_).events)
    else if eos_policy = DynGRMHD_EOS.eos_hybrid then
      let use_NQT := pin.GetOrAddBoolean "mhd" "use_NQT" false
      if use_NQT.1 then
        (use_NQT.2, (RunTest alg (EOSPolicy.EOSHybrid LogPolicy.NQTLogs) use_NQT.2 pmy_mesh_).events)
      else
        (use_NQT.2,
          (RunTest alg (EOSPolicy.EOSHybrid LogPolicy.NormalLogs) use_NQT.2 pmy_mesh_).events)
    else if eos_policy = DynGRMHD_EOS.eos_piecewise_poly then
      (pin, (RunTest alg EOSPolicy.PiecewisePolytrope pin pmy_mesh_).events)
    else
      (pin, [])
  (run.1, run.2 ++ [Event.SetADMVariables])

/-! ## Reading the events -/

/-- The texts printed, in order. -/
def printed : List Event → List String
  | [] => []
  | Event.printf text :: rest => text :: printed rest
  | _ :: rest => printed rest

/-- The policies of the solver calls, in order. -/
def solverCalls : List Event → List EOSPolicy
  | [] => []
  | Event.ConToPrim policy _ _ _ _ :: rest => policy :: solverCalls rest
  | _ :: rest => solverCalls rest

/-- The number of calls of `SetADMVariables`. -/
def admCalls : List Event → Nat
  | [] => 0
  | Event.SetADMVariables :: rest => admCalls rest + 1
  | _ :: rest => admCalls rest

/-- The header of the success branch. -/
def successHeader : String := "The C2P succeeded!"

/-- The header of the failure branch. -/
def failureHeader : String := "The C2P failed!"

/-- The three flag lines as the formats lay them out, for the values `a`, `b`, `c`. -/
def flagLines (a b c : Int) : String :=
  "  cons floor: " ++ toString a ++ "\n  prim floor: " ++ toString b ++
    "\n  cons adjusted: " ++ toString c ++ "\n"

/-! ## The metric algebra and the degenerate-metric outcome, from the spec -/

namespace Spec

/-- Slot `i` of a metric array, `0` when it was never written. -/
def slot (g : RealArray) (i : Nat) : Real := (g i).getD 0

/-- Modelled from the spec: `Primitive::GetDeterminant` is not among the sources. The
spec (metric algebra) names the operation `Determinant(g)` of a symmetric 3x3 tensor with
components g11, g12, g13, g22, g23, g33. -/
def Determinant (g : RealArray) : Real :=
  slot g S11 * (slot g S22 * slot g S33 - slot g S23 * slot g S23)
    - slot g S12 * (slot g S12 * slot g S33 - slot g S23 * slot g S13)
    + slot g S13 * (slot g S12 * slot g S23 - slot g S22 * slot g S13)

/-- Modelled from the spec: `Primitive::InvertMatrix` is not among the sources. The spec
(metric algebra) has `Invert(g, det)` as the closed-form cofactor inversion. -/
def Invert (g : RealArray) (det : Real) : RealArray :=
  (((((uninit.set S11 ((slot g S22 * slot g S33 - slot g S23 * slot g S23) / det)).set
    S12 ((slot g S13 * slot g S23 - slot g S12 * slot g S33) / det)).set
    S13 ((slot g S12 * slot g S23 - slot g S13 * slot g S22) / det)).set
    S22 ((slot g S11 * slot g S33 - slot g S13 * slot g S13) / det)).set
    S23 ((slot g S12 * slot g S13 - slot g S11 * slot g S23) / det)).set
    S33 ((slot g S11 * slot g S22 - slot g S12 * slot g S12) / det)

/-- Modelled from the spec: the metric algebra with the two operations above. -/
def metricAlgebra : MetricAlgebra :=
  { GetDeterminant := Determinant, InvertMatrix := Invert }

/-- Modelled from the spec: the metric is degenerate when its determinant is
non-positive or within `epsilon` of zero (metric algebra, `Determinant` fails). -/
def degenerate (epsilon : Real) (g : RealArray) : Bool :=
  decide (Determinant g ≤ 0) || decide (|Determinant g| ≤ epsilon)

/-- Modelled from the spec: the member `ConToPrim` is not among the sources. The spec has
a degenerate metric yield `DegenerateMetric` and no primitive output, the failure of the
metric algebra going up unchanged; the inversion itself, which the spec leaves open, is
the parameter `inversion`. -/
def solver (epsilon : Real) (inversion : PrimitiveSolver) : PrimitiveSolver :=
  { ConToPrim := fun cons_pt Bu g3d g3u =>
      if degenerate epsilon g3d then
        { prim_pt := uninit
          cons_pt := cons_pt
          result :=
            { error := Error.DegenerateMetric
              cons_floor := false
              prim_floor := false
              cons_adjusted := false } }
      else inversion.ConToPrim cons_pt Bu g3d g3u }

end Spec

/-! ## Concrete inputs -/

/-- A parameter input: flat metric, `D = 1`, `tau = 2`, two scalars, everything else
`0`, no boolean entry. -/
def flatInput : ParameterInput :=
  { reals := fun _ name =>
      if name = "D" then 1 else if name = "tau" then 2
      else if name = "gxx" then 1 else if name = "gyy" then 1 else if name = "gzz" then 1
      else if name = "DY0" then 1 / 4 else if name = "DY1" then 3 / 4 else 0
    bools := fun _ _ => none }

/-- A parameter input whose metric has determinant `0` (all components `0`) and whose
entry `mhd/use_NQT` is `true`. -/
def zeroMetricInput : ParameterInput :=
  { reals := fun _ name => if name = "D" then 1 else 0
    bools := fun block name => if block = "mhd" ∧ name = "use_NQT" then some true else none }

/-- A solver that reports success with no flag, whatever it is given. -/
def quietSolver : PrimitiveSolver :=
  { ConToPrim := fun cons_pt _ _ _ =>
      { prim_pt := uninit
        cons_pt := cons_pt
        result :=
          { error := Error.SUCCESS, cons_floor := false, prim_floor := false,
            cons_adjusted := false } } }

/-- A solver that fills a primitive slot and changes the conserved density, and returns
the same record as `quietSolver`. -/
def adjustingSolver : PrimitiveSolver :=
  { ConToPrim := fun cons_pt _ _ _ =>
      { prim_pt := uninit.set 0 1
        cons_pt := cons_pt.set CDN 5
        result :=
          { error := Error.SUCCESS, cons_floor := false, prim_floor := false,
            cons_adjusted := false } } }

/-- A mesh with the given policy, number of scalars and solver (the same for each
instantiation). -/
def meshOf (eos_policy : DynGRMHD_EOS) (nscalars : Int) (ps : PrimitiveSolver) : Mesh :=
  { pmb_pack :=
      { pmhd := { nscalars := nscalars }
        pdyngr := { eos_policy := eos_policy, ps := fun _ => ps } } }

/-! ## Lemmas on the printed text -/

theorem report_layout (r : SolverResult) :
    report r = (if r.error = Error.SUCCESS then successHeader else failureHeader) ++ "\n" ++
      flagLines (boolToInt r.cons_floor) (boolToInt r.prim_floor) (boolToInt r.cons_adjusted) := by
  rcases r with ⟨e, a, b, c⟩
  cases e <;> cases a <;> cases b <;> cases c <;> decide

theorem headers_disjoint (a b : String) : successHeader ++ a ≠ failureHeader ++ b := by
  intro h
  have h2 := congrArg String.data h
  simp only [String.data_append] at h2
  have hs : successHeader.data = 'T' :: 'h' :: 'e' :: ' ' :: 'C' :: '2' :: 'P' :: ' ' ::
      's' :: "ucceeded!".data := rfl
  have hf : failureHeader.data = 'T' :: 'h' :: 'e' :: ' ' :: 'C' :: '2' :: 'P' :: ' ' ::
      'f' :: "ailed!".data := rfl
  rw [hs, hf] at h2
  simp at h2

/-! ## Lemmas on the arrays -/

theorem scalarLoop_fst (pin : ParameterInput) (n : Nat) (arrays : RealArray × RealArray)
    (j : Nat) :
    ((List.range n).foldl
      (fun acc s =>
        let v := pin.GetReal "problem" ("DY" ++ toString s)
        ((acc.1.set (CYD + s) v, acc.2.set (CYD + s) v) : RealArray × RealArray))
      arrays).1 j =
      if CYD ≤ j ∧ j < CYD + n then some (pin.GetReal "problem" ("DY" ++ toString (j - CYD)))
      else arrays.1 j := by
  induction n with
  | zero =>
    have h0 : ¬ (CYD ≤ j ∧ j < CYD + 0) := by omega
    rw [List.range_zero, List.foldl_nil, if_neg h0]
  | succ n ih =>
    rw [List.range_succ, List.foldl_append]
    simp only [List.foldl_cons, List.foldl_nil, RealArray.set]
    by_cases hj : j = CYD + n
    · subst hj
      have h1 : CYD ≤ CYD + n ∧ CYD + n < CYD + (n + 1) := by omega
      simp [h1]
    · rw [if_neg hj, ih]
      by_cases h2 : CYD ≤ j ∧ j < CYD + n
      · have h3 : CYD ≤ j ∧ j < CYD + (n + 1) := by omega
        rw [if_pos h2, if_pos h3]
      · have h3 : ¬ (CYD ≤ j ∧ j < CYD + (n + 1)) := by omega
        rw [if_neg h2, if_neg h3]

theorem scalarLoop_same (pin : ParameterInput) (n : Nat) (a : RealArray) :
    ((List.range n).foldl
      (fun acc s =>
        let v := pin.GetReal "problem" ("DY" ++ toString s)
        ((acc.1.set (CYD + s) v, acc.2.set (CYD + s) v) : RealArray × RealArray))
      (a, a)).2 =
    ((List.range n).foldl
      (fun acc s =>
        let v := pin.GetReal "problem" ("DY" ++ toString s)
        ((acc.1.set (CYD + s) v, acc.2.set (CYD + s) v) : RealArray × RealArray))
      (a, a)).1 := by
  induction n with
  | zero => rfl
  | succ n ih =>
    rw [List.range_succ, List.foldl_append]
    simp only [List.foldl_cons, List.foldl_nil]
    rw [ih]

theorem readCons_same (pin : ParameterInput) (nscal_ : Int) :
    (readCons pin nscal_).2 = (readCons pin nscal_).1 :=
  scalarLoop_same pin nscal_.toNat _

theorem readCons_slot (pin : ParameterInput) (nscal_ : Int) (j : Nat) :
    (readCons pin nscal_).1 j =
      if CYD ≤ j ∧ j < CYD + nscal_.toNat then
        some (pin.GetReal "problem" ("DY" ++ toString (j - CYD)))
      else if j = CTA then some (pin.GetReal "problem" "tau")
      else if j = CSZ then some (pin.GetReal "problem" "Sz")
      else if j = CSY then some (pin.GetReal "problem" "Sy")
      else if j = CSX then some (pin.GetReal "problem" "Sx")
      else if j = CDN then some (pin.GetReal "problem" "D")
      else none := by
  unfold readCons scalarLoop
  rw [scalarLoop_fst]
  rfl

theorem zeroMetric_determinant : Spec.Determinant (readMetric zeroMetricInput) = 0 := by
  simp [Spec.Determinant, Spec.slot, readMetric, RealArray.set, uninit, zeroMetricInput,
    ParameterInput.GetReal, S11, S12, S13, S22, S23, S33]

theorem GetOrAddBoolean_reals (pin : ParameterInput) (block name : String)
    (def_value : Bool) : (pin.GetOrAddBoolean block name def_value).2.reals = pin.reals := by
  unfold ParameterInput.GetOrAddBoolean
  cases pin.bools block name <;> rfl

theorem RunTest_reals (alg : MetricAlgebra) (policy : EOSPolicy) (pin1 pin : ParameterInput)
    (mesh : Mesh) (h : pin1.reals = pin.reals) :
    RunTest alg policy pin1 mesh = RunTest alg policy pin mesh := by
  unfold RunTest readCons scalarLoop readBu readMetric ParameterInput.GetReal
  simp only [h]

theorem RunTest_events (alg : MetricAlgebra) (policy : EOSPolicy) (pin : ParameterInput)
    (mesh : Mesh) :
    (RunTest alg policy pin mesh).events =
      [Event.ConToPrim policy (readCons pin mesh.pmb_pack.pmhd.nscalars).1 (readBu pin)
          (readMetric pin)
          (alg.InvertMatrix (readMetric pin) (alg.GetDeterminant (readMetric pin))),
        Event.printf (report (RunTest alg policy pin mesh).result)] := rfl

theorem RunTest_result (alg : MetricAlgebra) (policy : EOSPolicy) (pin : ParameterInput)
    (mesh : Mesh) :
    (RunTest alg policy pin mesh).result =
      ((mesh.pmb_pack.pdyngr.ps policy).ConToPrim (readCons pin mesh.pmb_pack.pmhd.nscalars).1
        (readBu pin) (readMetric pin)
        (alg.InvertMatrix (readMetric pin) (alg.GetDeterminant (readMetric pin)))).result := rfl

/-! ## The claims -/

/-- C1: whatever record `r` the one `ConToPrim` call of `RunTest` returns, `RunTest`
prints one text; that text starts with "The C2P succeeded!" exactly when
`r.error` is `SUCCESS`, and starts with "The C2P failed!" exactly when it is not. -/
theorem RunTest_header_iff_success (alg : MetricAlgebra) (policy : EOSPolicy)
    (pin : ParameterInput) (mesh : Mesh) :
    ∃ text, printed (RunTest alg policy pin mesh).events = [text] ∧
      ((∃ rest, text = successHeader ++ rest) ↔
        (RunTest alg policy pin mesh).result.error = Error.SUCCESS) ∧
      ((∃ rest, text = failureHeader ++ rest) ↔
        (RunTest alg policy pin mesh).result.error ≠ Error.SUCCESS) := by
  refine ⟨report (RunTest alg policy pin mesh).result, rfl, ?_, ?_⟩
  · rw [report_layout]
    constructor
    · rintro ⟨rest, h⟩
      by_contra hne
      rw [if_neg hne, String.append_assoc] at h
      exact headers_disjoint _ _ h.symm
    · intro h
      rw [if_pos h, String.append_assoc]
      exact ⟨_, rfl⟩
  · rw [report_layout]
    constructor
    · rintro ⟨rest, h⟩ heq
      rw [if_pos heq, String.append_assoc] at h
      exact headers_disjoint _ _ h
    · intro h
      rw [if_neg h, String.append_assoc]
      exact ⟨_, rfl⟩

/-- C2: on both branches the text `RunTest` prints is a header line followed by the
three flags of the returned record, unchanged and in the order cons_floor, prim_floor,
cons_adjusted: after "cons floor: " stands `r.cons_floor`, after "prim floor: " stands
`r.prim_floor`, after "cons adjusted: " stands `r.cons_adjusted`, each as `%d` writes
a `bool` (1 for true, 0 for false). -/
theorem RunTest_reports_flags (alg : MetricAlgebra) (policy : EOSPolicy)
    (pin : ParameterInput) (mesh : Mesh) :
    ∃ header, (header = successHeader ∨ header = failureHeader) ∧
      printed (RunTest alg policy pin mesh).events =
        [header ++ "\n" ++
          "  cons floor: " ++
            (if (RunTest alg policy pin mesh).result.cons_floor then "1" else "0") ++
          "\n  prim floor: " ++
            (if (RunTest alg policy pin mesh).result.prim_floor then "1" else "0") ++
          "\n  cons adjusted: " ++
            (if (RunTest alg policy pin mesh).result.cons_adjusted then "1" else "0") ++
          "\n"] := by
  refine ⟨if (RunTest alg policy pin mesh).result.error = Error.SUCCESS then successHeader
    else failureHeader, ?_, ?_⟩
  · by_cases h : (RunTest alg policy pin mesh).result.error = Error.SUCCESS
    · exact Or.inl (if_pos h)
    · exact Or.inr (if_neg h)
  · show [report (RunTest alg policy pin mesh).result] = _
    generalize (RunTest alg policy pin mesh).result = r
    rcases r with ⟨e, a, b, c⟩
    cases e <;> cases a <;> cases b <;> cases c <;> decide

theorem UserProblem_dispatch (alg : MetricAlgebra) (mesh : Mesh) (pin : ParameterInput)
    (restart : Bool) :
    (mesh.pmb_pack.pdyngr.eos_policy = DynGRMHD_EOS.eos_ideal →
      (UserProblem alg mesh pin restart).2 =
        (RunTest alg EOSPolicy.IdealGas pin mesh).events ++ [Event.SetADMVariables]) ∧
    (mesh.pmb_pack.pdyngr.eos_policy = DynGRMHD_EOS.eos_piecewise_poly →
      (UserProblem alg mesh pin restart).2 =
        (RunTest alg EOSPolicy.PiecewisePolytrope pin mesh).events ++
          [Event.SetADMVariables]) ∧
    (mesh.pmb_pack.pdyngr.eos_policy = DynGRMHD_EOS.eos_compose →
      pin.bools "mhd" "use_NQT" = some true →
      (UserProblem alg mesh pin restart).2 =
        (RunTest alg (EOSPolicy.EOSCompOSE LogPolicy.NQTLogs) pin mesh).events ++
          [Event.SetADMVariables]) ∧
    (mesh.pmb_pack.pdyngr.eos_policy = DynGRMHD_EOS.eos_compose →
      pin.bools "mhd" "use_NQT" ≠ some true →
      (UserProblem alg mesh pin restart).2 =
        (RunTest alg (EOSPolicy.EOSCompOSE LogPolicy.NormalLogs)
          (pin.GetOrAddBoolean "mhd" "use_NQT" false).2 mesh).events ++
          [Event.SetADMVariables]) ∧
    (mesh.pmb_pack.pdyngr.eos_policy = DynGRMHD_EOS.eos_hybrid →
      pin.bools "mhd" "use_NQT" = some true →
      (UserProblem alg mesh pin restart).2 =
        (RunTest alg (EOSPolicy.EOSHybrid LogPolicy.NQTLogs) pin mesh).events ++
          [Event.SetADMVariables]) ∧
    (mesh.pmb_pack.pdyngr.eos_policy = DynGRMHD_EOS.eos_hybrid →
      pin.bools "mhd" "use_NQT" ≠ some true →
      (UserProblem alg mesh pin restart).2 =
        (RunTest alg (EOSPolicy.EOSHybrid LogPolicy.NormalLogs)
          (pin.GetOrAddBoolean "mhd" "use_NQT" false).2 mesh).events ++
          [Event.SetADMVariables]) ∧
    (pin.bools "mhd" "use_NQT" = none →
      (pin.GetOrAddBoolean "mhd" "use_NQT" false).1 = false) := by
  have hval : pin.bools "mhd" "use_NQT" ≠ some true →
      (pin.GetOrAddBoolean "mhd" "use_NQT" false).1 = false := by
    intro hb
    unfold ParameterInput.GetOrAddBoolean
    cases hc : pin.bools "mhd" "use_NQT" with
    | none => rfl
    | some b =>
      cases b with
      | false => rfl
      | true => exact absurd hc hb
  have htrue : pin.bools "mhd" "use_NQT" = some true →
      pin.GetOrAddBoolean "mhd" "use_NQT" false = (true, pin) := by
    intro hb
    unfold ParameterInput.GetOrAddBoolean
    rw [hb]
  refine ⟨?_, ?_, ?_, ?_, ?_, ?_, ?_⟩
  · intro h
    simp [UserProblem, h]
  · intro h
    simp [UserProblem, h]
  · intro h hb
    simp [UserProblem, h, htrue hb]
  · intro h hb
    simp [UserProblem, h, hval hb]
  · intro h hb
    simp [UserProblem, h, htrue hb]
  · intro h hb
    simp [UserProblem, h, hval hb]
  · intro hb
    exact hval (by rw [hb]; exact fun hc => Option.noConfusion hc)

/-- C3: `UserProblem` runs `RunTest` with the policy the configuration selects:
`eos_ideal` with `IdealGas`, `eos_piecewise_poly` with `PiecewisePolytrope`, `eos_compose`
with `EOSCompOSE<NQTLogs>` when `mhd/use_NQT` is true and with `EOSCompOSE<NormalLogs>`
when it is false or absent, `eos_hybrid` likewise with `EOSHybrid`; an absent
`mhd/use_NQT` reads as false. -/
theorem UserProblem_selects_policy (alg : MetricAlgebra) (mesh : Mesh) (pin : ParameterInput)
    (restart : Bool) :
    (mesh.pmb_pack.pdyngr.eos_policy = DynGRMHD_EOS.eos_ideal →
      (UserProblem alg mesh pin restart).2 =
        (RunTest alg EOSPolicy.IdealGas pin mesh).events ++ [Event.SetADMVariables]) ∧
    (mesh.pmb_pack.pdyngr.eos_policy = DynGRMHD_EOS.eos_piecewise_poly →
      (UserProblem alg mesh pin restart).2 =
        (RunTest alg EOSPolicy.PiecewisePolytrope pin mesh).events ++
          [Event.SetADMVariables]) ∧
    (mesh.pmb_pack.pdyngr.eos_policy = DynGRMHD_EOS.eos_compose →
      pin.bools "mhd" "use_NQT" = some true →
      (UserProblem alg mesh pin restart).2 =
        (RunTest alg (EOSPolicy.EOSCompOSE LogPolicy.NQTLogs) pin mesh).events ++
          [Event.SetADMVariables]) ∧
    (mesh.pmb_pack.pdyngr.eos_policy = DynGRMHD_EOS.eos_compose →
      pin.bools "mhd" "use_NQT" ≠ some true →
      (UserProblem alg mesh pin restart).2 =
        (RunTest alg (EOSPolicy.EOSCompOSE LogPolicy.NormalLogs)
          (pin.GetOrAddBoolean "mhd" "use_NQT" false).2 mesh).events ++
          [Event.SetADMVariables]) ∧
    (mesh.pmb_pack.pdyngr.eos_policy = DynGRMHD_EOS.eos_hybrid →
      pin.bools "mhd" "use_NQT" = some true →
      (UserProblem alg mesh pin restart).2 =
        (RunTest alg (EOSPolicy.EOSHybrid LogPolicy.NQTLogs) pin mesh).events ++
          [Event.SetADMVariables]) ∧
    (mesh.pmb_pack.pdyngr.eos_policy = DynGRMHD_EOS.eos_hybrid →
      pin.bools "mhd" "use_NQT" ≠ some true →
      (UserProblem alg mesh pin restart).2 =
        (RunTest alg (EOSPolicy.EOSHybrid LogPolicy.NormalLogs)
          (pin.GetOrAddBoolean "mhd" "use_NQT" false).2 mesh).events ++
          [Event.SetADMVariables]) ∧
    (pin.bools "mhd" "use_NQT" = none →
      (pin.GetOrAddBoolean "mhd" "use_NQT" false).1 = false) :=
  UserProblem_dispatch alg mesh pin restart

/-- C3 at concrete inputs: with `eos_compose` and `mhd/use_NQT = true` the run is that of
`EOSCompOSE<NQTLogs>`; with `eos_hybrid` and no entry `mhd/use_NQT` it is that of
`EOSHybrid<NormalLogs>`. -/
theorem UserProblem_selects_policy_witness :
    (UserProblem Spec.metricAlgebra (meshOf DynGRMHD_EOS.eos_compose 2 quietSolver)
        zeroMetricInput false).2 =
      (RunTest Spec.metricAlgebra (EOSPolicy.EOSCompOSE LogPolicy.NQTLogs) zeroMetricInput
        (meshOf DynGRMHD_EOS.eos_compose 2 quietSolver)).events ++ [Event.SetADMVariables] ∧
    (UserProblem Spec.metricAlgebra (meshOf DynGRMHD_EOS.eos_hybrid 2 quietSolver)
        flatInput false).2 =
      (RunTest Spec.metricAlgebra (EOSPolicy.EOSHybrid LogPolicy.NormalLogs)
        (flatInput.GetOrAddBoolean "mhd" "use_NQT" false).2
        (meshOf DynGRMHD_EOS.eos_hybrid 2 quietSolver)).events ++ [Event.SetADMVariables] :=
  ⟨(UserProblem_selects_policy Spec.metricAlgebra
      (meshOf DynGRMHD_EOS.eos_compose 2 quietSolver) zeroMetricInput false).2.2.1 rfl rfl,
    (UserProblem_selects_policy Spec.metricAlgebra
      (meshOf DynGRMHD_EOS.eos_hybrid 2 quietSolver) flatInput false).2.2.2.2.2.1 rfl
      (fun h => Option.noConfusion h)⟩

/-- C5: when the configured policy is one of `eos_ideal`, `eos_compose`, `eos_hybrid`,
`eos_piecewise_poly`, the events of one call of `UserProblem` are exactly three: one
`ConToPrim` call, for the selected policy, on the one conserved array built from the
configured D, Sx, Sy, Sz, tau and scalars (with the configured field and metric and the
inverse of that metric); one printed text, which is the report of the record that call
returned, a header line followed by the three flag lines of that record; and
`SetADMVariables`. -/
theorem UserProblem_single_run (alg : MetricAlgebra) (mesh : Mesh) (pin : ParameterInput)
    (restart : Bool)
    (h : mesh.pmb_pack.pdyngr.eos_policy = DynGRMHD_EOS.eos_ideal ∨
      mesh.pmb_pack.pdyngr.eos_policy = DynGRMHD_EOS.eos_compose ∨
      mesh.pmb_pack.pdyngr.eos_policy = DynGRMHD_EOS.eos_hybrid ∨
      mesh.pmb_pack.pdyngr.eos_policy = DynGRMHD_EOS.eos_piecewise_poly) :
    ∃ policy,
      (mesh.pmb_pack.pdyngr.eos_policy = DynGRMHD_EOS.eos_ideal →
        policy = EOSPolicy.IdealGas) ∧
      (mesh.pmb_pack.pdyngr.eos_policy = DynGRMHD_EOS.eos_piecewise_poly →
        policy = EOSPolicy.PiecewisePolytrope) ∧
      (mesh.pmb_pack.pdyngr.eos_policy = DynGRMHD_EOS.eos_compose →
        policy = EOSPolicy.EOSCompOSE
          (if pin.bools "mhd" "use_NQT" = some true then LogPolicy.NQTLogs
            else LogPolicy.NormalLogs)) ∧
      (mesh.pmb_pack.pdyngr.eos_policy = DynGRMHD_EOS.eos_hybrid →
        policy = EOSPolicy.EOSHybrid
          (if pin.bools "mhd" "use_NQT" = some true then LogPolicy.NQTLogs
            else LogPolicy.NormalLogs)) ∧
      (UserProblem alg mesh pin restart).2 =
        [Event.ConToPrim policy (readCons pin mesh.pmb_pack.pmhd.nscalars).1 (readBu pin)
            (readMetric pin)
            (alg.InvertMatrix (readMetric pin) (alg.GetDeterminant (readMetric pin))),
          Event.printf
            (report ((mesh.pmb_pack.pdyngr.ps policy).ConToPrim
              (readCons pin mesh.pmb_pack.pmhd.nscalars).1 (readBu pin) (readMetric pin)
              (alg.InvertMatrix (readMetric pin)
                (alg.GetDeterminant (readMetric pin)))).result),
          Event.SetADMVariables] ∧
      report ((mesh.pmb_pack.pdyngr.ps policy).ConToPrim
          (readCons pin mesh.pmb_pack.pmhd.nscalars).1 (readBu pin) (readMetric pin)
          (alg.InvertMatrix (readMetric pin) (alg.GetDeterminant (readMetric pin)))).result =
        (if ((mesh.pmb_pack.pdyngr.ps policy).ConToPrim
            (readCons pin mesh.pmb_pack.pmhd.nscalars).1 (readBu pin) (readMetric pin)
            (alg.InvertMatrix (readMetric pin)
              (alg.GetDeterminant (readMetric pin)))).result.error = Error.SUCCESS
          then successHeader else failureHeader) ++ "\n" ++
        flagLines
          (boolToInt ((mesh.pmb_pack.pdyngr.ps policy).ConToPrim
            (readCons pin mesh.pmb_pack.pmhd.nscalars).1 (readBu pin) (readMetric pin)
            (alg.InvertMatrix (readMetric pin)
              (alg.GetDeterminant (readMetric pin)))).result.cons_floor)
          (boolToInt ((mesh.pmb_pack.pdyngr.ps policy).ConToPrim
            (readCons pin mesh.pmb_pack.pmhd.nscalars).1 (readBu pin) (readMetric pin)
            (alg.InvertMatrix (readMetric pin)
              (alg.GetDeterminant (readMetric pin)))).result.prim_floor)
          (boolToInt ((mesh.pmb_pack.pdyngr.ps policy).ConToPrim
            (readCons pin mesh.pmb_pack.pmhd.nscalars).1 (readBu pin) (readMetric pin)
            (alg.InvertMatrix (readMetric pin)
              (alg.GetDeterminant (readMetric pin)))).result.cons_adjusted) ∧
      solverCalls (UserProblem alg mesh pin restart).2 = [policy] ∧
      (printed (UserProblem alg mesh pin restart).2).length = 1 := by
  have key : ∀ (policy : EOSPolicy) (pin1 : ParameterInput), pin1.reals = pin.reals →
      (UserProblem alg mesh pin restart).2 =
        (RunTest alg policy pin1 mesh).events ++ [Event.SetADMVariables] →
      (UserProblem alg mesh pin restart).2 =
        [Event.ConToPrim policy (readCons pin mesh.pmb_pack.pmhd.nscalars).1 (readBu pin)
            (readMetric pin)
            (alg.InvertMatrix (readMetric pin) (alg.GetDeterminant (readMetric pin))),
          Event.printf
            (report ((mesh.pmb_pack.pdyngr.ps policy).ConToPrim
              (readCons pin mesh.pmb_pack.pmhd.nscalars).1 (readBu pin) (readMetric pin)
              (alg.InvertMatrix (readMetric pin)
                (alg.GetDeterminant (readMetric pin)))).result),
          Event.SetADMVariables] := by
    intro policy pin1 hreals hrun
    rw [hrun, RunTest_reals alg policy pin1 pin mesh hreals, RunTest_events, RunTest_result]
    rfl
  have fin : ∀ (policy : EOSPolicy),
      (UserProblem alg mesh pin restart).2 =
        [Event.ConToPrim policy (readCons pin mesh.pmb_pack.pmhd.nscalars).1 (readBu pin)
            (readMetric pin)
            (alg.InvertMatrix (readMetric pin) (alg.GetDeterminant (readMetric pin))),
          Event.printf
            (report ((mesh.pmb_pack.pdyngr.ps policy).ConToPrim
              (readCons pin mesh.pmb_pack.pmhd.nscalars).1 (readBu pin) (readMetric pin)
              (alg.InvertMatrix (readMetric pin)
                (alg.GetDeterminant (readMetric pin)))).result),
          Event.SetADMVariables] →
      solverCalls (UserProblem alg mesh pin restart).2 = [policy] ∧
      (printed (UserProblem alg mesh pin restart).2).length = 1 := by
    intro policy hev
    rw [hev]
    exact ⟨rfl, rfl⟩
  have hadd : (pin.GetOrAddBoolean "mhd" "use_NQT" false).2.reals = pin.reals :=
    GetOrAddBoolean_reals pin "mhd" "use_NQT" false
  have sel := UserProblem_dispatch alg mesh pin restart
  rcases h with h | h | h | h
  · have hev := key _ _ rfl (sel.1 h)
    refine ⟨EOSPolicy.IdealGas, fun _ => rfl, ?_, ?_, ?_, hev, report_layout _, fin _ hev⟩
    · intro h2; rw [h] at h2; exact DynGRMHD_EOS.noConfusion h2
    · intro h2; rw [h] at h2; exact DynGRMHD_EOS.noConfusion h2
    · intro h2; rw [h] at h2; exact DynGRMHD_EOS.noConfusion h2
  · by_cases hb : pin.bools "mhd" "use_NQT" = some true
    · have hev := key _ _ rfl (sel.2.2.1 h hb)
      refine ⟨EOSPolicy.EOSCompOSE LogPolicy.NQTLogs, ?_, ?_, ?_, ?_, hev, report_layout _,
        fin _ hev⟩
      · intro h2; rw [h] at h2; exact DynGRMHD_EOS.noConfusion h2
      · intro h2; rw [h] at h2; exact DynGRMHD_EOS.noConfusion h2
      · intro _; rw [if_pos hb]
      · intro h2; rw [h] at h2; exact DynGRMHD_EOS.noConfusion h2
    · have hev := key _ _ hadd (sel.2.2.2.1 h hb)
      refine ⟨EOSPolicy.EOSCompOSE LogPolicy.NormalLogs, ?_, ?_, ?_, ?_, hev, report_layout _,
        fin _ hev⟩
      · intro h2; rw [h] at h2; exact DynGRMHD_EOS.noConfusion h2
      · intro h2; rw [h] at h2; exact DynGRMHD_EOS.noConfusion h2
      · intro _; rw [if_neg hb]
      · intro h2; rw [h] at h2; exact DynGRMHD_EOS.noConfusion h2
  · by_cases hb : pin.bools "mhd" "use_NQT" = some true
    · have hev := key _ _ rfl (sel.2.2.2.2.1 h hb)
      refine ⟨EOSPolicy.EOSHybrid LogPolicy.NQTLogs, ?_, ?_, ?_, ?_, hev, report_layout _,
        fin _ hev⟩
      · intro h2; rw [h] at h2; exact DynGRMHD_EOS.noConfusion h2
      · intro h2; rw [h] at h2; exact DynGRMHD_EOS.noConfusion h2
      · intro h2; rw [h] at h2; exact DynGRMHD_EOS.noConfusion h2
      · intro _; rw [if_pos hb]
    · have hev := key _ _ hadd (sel.2.2.2.2.2.1 h hb)
      refine ⟨EOSPolicy.EOSHybrid LogPolicy.NormalLogs, ?_, ?_, ?_, ?_, hev, report_layout _,
        fin _ hev⟩
      · intro h2; rw [h] at h2; exact DynGRMHD_EOS.noConfusion h2
      · intro h2; rw [h] at h2; exact DynGRMHD_EOS.noConfusion h2
      · intro h2; rw [h] at h2; exact DynGRMHD_EOS.noConfusion h2
      · intro _; rw [if_neg hb]
  · have hev := key _ _ rfl (sel.2.1 h)
    refine ⟨EOSPolicy.PiecewisePolytrope, ?_, fun _ => rfl, ?_, ?_, hev, report_layout _,
      fin _ hev⟩
    · intro h2; rw [h] at h2; exact DynGRMHD_EOS.noConfusion h2
    · intro h2; rw [h] at h2; exact DynGRMHD_EOS.noConfusion h2
    · intro h2; rw [h] at h2; exact DynGRMHD_EOS.noConfusion h2

/-- C5 at a concrete input: policy `eos_hybrid`, no entry `mhd/use_NQT`, flat metric,
`D = 1`, `tau = 2`, a solver returning success with no flag. The one solver call is for
`EOSHybrid<NormalLogs>`, its conserved array holds `D = 1` in slot `CDN`, and the one
printed text is the success report with the three flags 0. -/
theorem UserProblem_single_run_witness :
    (meshOf DynGRMHD_EOS.eos_hybrid 2 quietSolver).pmb_pack.pdyngr.eos_policy =
        DynGRMHD_EOS.eos_hybrid ∧
    solverCalls (UserProblem Spec.metricAlgebra (meshOf DynGRMHD_EOS.eos_hybrid 2 quietSolver)
        flatInput false).2 = [EOSPolicy.EOSHybrid LogPolicy.NormalLogs] ∧
    printed (UserProblem Spec.metricAlgebra (meshOf DynGRMHD_EOS.eos_hybrid 2 quietSolver)
        flatInput false).2 =
      ["The C2P succeeded!\n  cons floor: 0\n  prim floor: 0\n  cons adjusted: 0\n"] ∧
    (UserProblem Spec.metricAlgebra (meshOf DynGRMHD_EOS.eos_hybrid 2 quietSolver)
        flatInput false).2 =
      [Event.ConToPrim (EOSPolicy.EOSHybrid LogPolicy.NormalLogs) (readCons flatInput 2).1
          (readBu flatInput) (readMetric flatInput)
          (Spec.Invert (readMetric flatInput) (Spec.Determinant (readMetric flatInput))),
        Event.printf
          "The C2P succeeded!\n  cons floor: 0\n  prim floor: 0\n  cons adjusted: 0\n",
        Event.SetADMVariables] ∧
    (readCons flatInput 2).1 CDN = some 1 := by
  obtain ⟨policy, _, _, _, hpol, hev, _, hcalls, _⟩ :=
    UserProblem_single_run Spec.metricAlgebra
      (meshOf DynGRMHD_EOS.eos_hybrid 2 quietSolver) flatInput false
      (Or.inr (Or.inr (Or.inl rfl)))
  have hp : policy = EOSPolicy.EOSHybrid LogPolicy.NormalLogs := hpol rfl
  subst hp
  refine ⟨rfl, hcalls, ?_, ?_, rfl⟩
  · rw [hev]; rfl
  · rw [hev]; rfl

/-- C9: when the configured policy is none of `eos_ideal`, `eos_compose`, `eos_hybrid`,
`eos_piecewise_poly`, `UserProblem` returns with `SetADMVariables` as its only event: no
solver call, nothing printed, the parameter input as it was. -/
theorem UserProblem_unrecognised_policy (alg : MetricAlgebra) (mesh : Mesh)
    (pin : ParameterInput) (restart : Bool)
    (h1 : mesh.pmb_pack.pdyngr.eos_policy ≠ DynGRMHD_EOS.eos_ideal)
    (h2 : mesh.pmb_pack.pdyngr.eos_policy ≠ DynGRMHD_EOS.eos_compose)
    (h3 : mesh.pmb_pack.pdyngr.eos_policy ≠ DynGRMHD_EOS.eos_hybrid)
    (h4 : mesh.pmb_pack.pdyngr.eos_policy ≠ DynGRMHD_EOS.eos_piecewise_poly) :
    (UserProblem alg mesh pin restart).2 = [Event.SetADMVariables] ∧
    solverCalls (UserProblem alg mesh pin restart).2 = [] ∧
    printed (UserProblem alg mesh pin restart).2 = [] ∧
    admCalls (UserProblem alg mesh pin restart).2 = 1 ∧
    (UserProblem alg mesh pin restart).1 = pin := by
  have hev : UserProblem alg mesh pin restart = (pin, [Event.SetADMVariables]) := by
    simp [UserProblem, h1, h2, h3, h4]
  rw [hev]
  exact ⟨rfl, rfl, rfl, rfl, rfl⟩

/-- C9 at a concrete input: a policy value outside the four named ones. -/
theorem UserProblem_unrecognised_policy_witness :
    (meshOf (DynGRMHD_EOS.other 7) 2 quietSolver).pmb_pack.pdyngr.eos_policy ≠
        DynGRMHD_EOS.eos_ideal ∧
    (UserProblem Spec.metricAlgebra (meshOf (DynGRMHD_EOS.other 7) 2 quietSolver)
        flatInput false).2 = [Event.SetADMVariables] ∧
    solverCalls (UserProblem Spec.metricAlgebra (meshOf (DynGRMHD_EOS.other 7) 2 quietSolver)
        flatInput false).2 = [] ∧
    printed (UserProblem Spec.metricAlgebra (meshOf (DynGRMHD_EOS.other 7) 2 quietSolver)
        flatInput false).2 = [] ∧
    admCalls (UserProblem Spec.metricAlgebra (meshOf (DynGRMHD_EOS.other 7) 2 quietSolver)
        flatInput false).2 = 1 ∧
    (UserProblem Spec.metricAlgebra (meshOf (DynGRMHD_EOS.other 7) 2 quietSolver)
        flatInput false).1 = flatInput :=
  ⟨fun h => DynGRMHD_EOS.noConfusion h,
    UserProblem_unrecognised_policy Spec.metricAlgebra
      (meshOf (DynGRMHD_EOS.other 7) 2 quietSolver) flatInput false
      (fun h => DynGRMHD_EOS.noConfusion h) (fun h => DynGRMHD_EOS.noConfusion h)
      (fun h => DynGRMHD_EOS.noConfusion h) (fun h => DynGRMHD_EOS.noConfusion h)⟩

/-- C7: the metric handed to `ConToPrim` is the array read from gxx, gxy, gxz, gyy, gyz,
gzz into the slots S11, S12, S13, S22, S23, S33 (and nothing else), and the inverse metric
handed to it is `InvertMatrix` of that same array and of `GetDeterminant` of that same
array, which is the local `detg`. -/
theorem RunTest_metric_pair (alg : MetricAlgebra) (policy : EOSPolicy) (pin : ParameterInput)
    (mesh : Mesh) :
    ∃ cons_pt Bu g3d g3u text,
      (RunTest alg policy pin mesh).events =
        [Event.ConToPrim policy cons_pt Bu g3d g3u, Event.printf text] ∧
      g3d S11 = some (pin.GetReal "problem" "gxx") ∧
      g3d S12 = some (pin.GetReal "problem" "gxy") ∧
      g3d S13 = some (pin.GetReal "problem" "gxz") ∧
      g3d S22 = some (pin.GetReal "problem" "gyy") ∧
      g3d S23 = some (pin.GetReal "problem" "gyz") ∧
      g3d S33 = some (pin.GetReal "problem" "gzz") ∧
      (∀ j, S33 < j → g3d j = none) ∧
      g3u = alg.InvertMatrix g3d (alg.GetDeterminant g3d) ∧
      (RunTest alg policy pin mesh).detg = alg.GetDeterminant g3d := by
  refine ⟨_, _, _, _, _, RunTest_events alg policy pin mesh, rfl, rfl, rfl, rfl, rfl, rfl,
    ?_, rfl, rfl⟩
  intro j hj
  have h5 : 5 < j := hj
  simp only [readMetric, RealArray.set, uninit, S11, S12, S13, S22, S23, S33]
  have e0 : j ≠ 0 := by omega
  have e1 : j ≠ 1 := by omega
  have e2 : j ≠ 2 := by omega
  have e3 : j ≠ 3 := by omega
  have e4 : j ≠ 4 := by omega
  have e5 : j ≠ 5 := by omega
  simp [e0, e1, e2, e3, e4, e5]

/-- C8: the conserved array handed to `ConToPrim` holds the configured D, Sx, Sy, Sz, tau
in the slots CDN, CSX, CSY, CSZ, CTA, holds in slot `CYD + s`, for every `s` below the
number of scalars, the configured value of the key "DY" followed by the decimal digits
of `s`, and has no slot `CYD + s` written for `s` at or above the number of scalars. -/
theorem RunTest_conserved_layout (alg : MetricAlgebra) (policy : EOSPolicy)
    (pin : ParameterInput) (mesh : Mesh) :
    ∃ cons_pt Bu g3d g3u text,
      (RunTest alg policy pin mesh).events =
        [Event.ConToPrim policy cons_pt Bu g3d g3u, Event.printf text] ∧
      cons_pt CDN = some (pin.GetReal "problem" "D") ∧
      cons_pt CSX = some (pin.GetReal "problem" "Sx") ∧
      cons_pt CSY = some (pin.GetReal "problem" "Sy") ∧
      cons_pt CSZ = some (pin.GetReal "problem" "Sz") ∧
      cons_pt CTA = some (pin.GetReal "problem" "tau") ∧
      (∀ s : Nat, (s : Int) < mesh.pmb_pack.pmhd.nscalars →
        cons_pt (CYD + s) = some (pin.GetReal "problem" ("DY" ++ toString s))) ∧
      (∀ s : Nat, mesh.pmb_pack.pmhd.nscalars ≤ (s : Int) → cons_pt (CYD + s) = none) := by
  refine ⟨_, _, _, _, _, RunTest_events alg policy pin mesh, ?_, ?_, ?_, ?_, ?_, ?_, ?_⟩
  · rw [readCons_slot]; simp [CYD, CDN, CSX, CSY, CSZ, CTA]
  · rw [readCons_slot]; simp [CYD, CDN, CSX, CSY, CSZ, CTA]
  · rw [readCons_slot]; simp [CYD, CDN, CSX, CSY, CSZ, CTA]
  · rw [readCons_slot]; simp [CYD, CDN, CSX, CSY, CSZ, CTA]
  · rw [readCons_slot]; simp [CYD, CDN, CSX, CSY, CSZ, CTA]
  · intro s hs
    rw [readCons_slot]
    have h1 : CYD ≤ CYD + s ∧ CYD + s < CYD + mesh.pmb_pack.pmhd.nscalars.toNat := by omega
    rw [if_pos h1, Nat.add_sub_cancel_left]
  · intro s hs
    rw [readCons_slot]
    have h1 : ¬ (CYD ≤ CYD + s ∧ CYD + s < CYD + mesh.pmb_pack.pmhd.nscalars.toNat) := by omega
    rw [if_neg h1]
    have e4 : CYD + s ≠ CTA := by simp only [CYD, CTA]; omega
    have e3 : CYD + s ≠ CSZ := by simp only [CYD, CSZ]; omega
    have e2 : CYD + s ≠ CSY := by simp only [CYD, CSY]; omega
    have e1 : CYD + s ≠ CSX := by simp only [CYD, CSX]; omega
    have e0 : CYD + s ≠ CDN := by simp only [CYD, CDN]; omega
    rw [if_neg e4, if_neg e3, if_neg e2, if_neg e1, if_neg e0]

/-- C8 at a concrete input: two scalars, `DY0 = 1/4`, `DY1 = 3/4`; slot `CYD + 1` holds
`3/4` and slot `CYD + 2` is not written. -/
theorem RunTest_conserved_layout_witness :
    ∃ cons_pt Bu g3d g3u text,
      (RunTest Spec.metricAlgebra EOSPolicy.IdealGas flatInput
        (meshOf DynGRMHD_EOS.eos_ideal 2 quietSolver)).events =
        [Event.ConToPrim EOSPolicy.IdealGas cons_pt Bu g3d g3u, Event.printf text] ∧
      cons_pt CDN = some 1 ∧ cons_pt CTA = some 2 ∧
      cons_pt (CYD + 1) = some (3 / 4) ∧ cons_pt (CYD + 2) = none := by
  obtain ⟨cons_pt, Bu, g3d, g3u, text, hev, hd, _, _, _, hta, hlt, hge⟩ :=
    RunTest_conserved_layout Spec.metricAlgebra EOSPolicy.IdealGas flatInput
      (meshOf DynGRMHD_EOS.eos_ideal 2 quietSolver)
  refine ⟨cons_pt, Bu, g3d, g3u, text, hev, ?_, ?_, ?_, hge 2 (le_refl _)⟩
  · rw [hd]; rfl
  · rw [hta]; rfl
  · rw [hlt 1 (by decide)]; rfl

/-- C10: two runs of `RunTest` whose returned records agree on whether `error` is
`SUCCESS` and on the three flags print the same text, whatever the solvers left in
`prim_pt` and `cons_pt`; and the saved copy `cons_pt_old` is, at the return, still the
conserved array that was handed to the solver, whatever the solver did to `cons_pt`. -/
theorem RunTest_output_from_result_only (alg₁ alg₂ : MetricAlgebra) (policy₁ policy₂ : EOSPolicy)
    (pin₁ pin₂ : ParameterInput) (mesh₁ mesh₂ : Mesh)
    (herr : (RunTest alg₁ policy₁ pin₁ mesh₁).result.error = Error.SUCCESS ↔
      (RunTest alg₂ policy₂ pin₂ mesh₂).result.error = Error.SUCCESS)
    (hcf : (RunTest alg₁ policy₁ pin₁ mesh₁).result.cons_floor =
      (RunTest alg₂ policy₂ pin₂ mesh₂).result.cons_floor)
    (hpf : (RunTest alg₁ policy₁ pin₁ mesh₁).result.prim_floor =
      (RunTest alg₂ policy₂ pin₂ mesh₂).result.prim_floor)
    (hca : (RunTest alg₁ policy₁ pin₁ mesh₁).result.cons_adjusted =
      (RunTest alg₂ policy₂ pin₂ mesh₂).result.cons_adjusted) :
    printed (RunTest alg₁ policy₁ pin₁ mesh₁).events =
      printed (RunTest alg₂ policy₂ pin₂ mesh₂).events ∧
    ∃ Bu g3d g3u text,
      (RunTest alg₁ policy₁ pin₁ mesh₁).events =
        [Event.ConToPrim policy₁ (RunTest alg₁ policy₁ pin₁ mesh₁).cons_pt_old Bu g3d g3u,
          Event.printf text] := by
  constructor
  · show [report (RunTest alg₁ policy₁ pin₁ mesh₁).result] =
      [report (RunTest alg₂ policy₂ pin₂ mesh₂).result]
    rw [report_layout, report_layout, hcf, hpf, hca]
    by_cases h : (RunTest alg₂ policy₂ pin₂ mesh₂).result.error = Error.SUCCESS
    · rw [if_pos h, if_pos (herr.mpr h)]
    · rw [if_neg h, if_neg (fun h1 => h (herr.mp h1))]
  · refine ⟨readBu pin₁, readMetric pin₁,
      alg₁.InvertMatrix (readMetric pin₁) (alg₁.GetDeterminant (readMetric pin₁)),
      report (RunTest alg₁ policy₁ pin₁ mesh₁).result, ?_⟩
    rw [RunTest_events]
    show _ = [Event.ConToPrim policy₁ (readCons pin₁ mesh₁.pmb_pack.pmhd.nscalars).2 _ _ _, _]
    rw [readCons_same]

/-- C10 at concrete inputs: one solver leaves the conserved array alone, the other
overwrites its density and fills a primitive slot; both return success with no flag,
and the printed texts are the same. -/
theorem RunTest_output_from_result_only_witness :
    (RunTest Spec.metricAlgebra EOSPolicy.IdealGas flatInput
      (meshOf DynGRMHD_EOS.eos_ideal 2 quietSolver)).cons_pt CDN = some 1 ∧
    (RunTest Spec.metricAlgebra EOSPolicy.IdealGas flatInput
      (meshOf DynGRMHD_EOS.eos_ideal 2 adjustingSolver)).cons_pt CDN = some 5 ∧
    (printed (RunTest Spec.metricAlgebra EOSPolicy.IdealGas flatInput
        (meshOf DynGRMHD_EOS.eos_ideal 2 quietSolver)).events =
      printed (RunTest Spec.metricAlgebra EOSPolicy.IdealGas flatInput
        (meshOf DynGRMHD_EOS.eos_ideal 2 adjustingSolver)).events ∧
    ∃ Bu g3d g3u text,
      (RunTest Spec.metricAlgebra EOSPolicy.IdealGas flatInput
        (meshOf DynGRMHD_EOS.eos_ideal 2 quietSolver)).events =
        [Event.ConToPrim EOSPolicy.IdealGas
          (RunTest Spec.metricAlgebra EOSPolicy.IdealGas flatInput
            (meshOf DynGRMHD_EOS.eos_ideal 2 quietSolver)).cons_pt_old Bu g3d g3u,
          Event.printf text]) :=
  ⟨rfl, rfl,
    RunTest_output_from_result_only Spec.metricAlgebra Spec.metricAlgebra EOSPolicy.IdealGas
      EOSPolicy.IdealGas flatInput flatInput (meshOf DynGRMHD_EOS.eos_ideal 2 quietSolver)
      (meshOf DynGRMHD_EOS.eos_ideal 2 adjustingSolver) Iff.rfl rfl rfl rfl⟩

/-- C4: with the metric algebra and the solver as the spec has them, a configured metric
whose determinant is at most 0 gives the outcome `DegenerateMetric`, leaves the primitive
array unwritten, and `RunTest` prints the failure header. -/
theorem RunTest_degenerate_metric (epsilon : Real) (inversion : PrimitiveSolver)
    (policy : EOSPolicy) (pin : ParameterInput) (mesh : Mesh)
    (hps : mesh.pmb_pack.pdyngr.ps policy = Spec.solver epsilon inversion)
    (hdet : Spec.Determinant (readMetric pin) ≤ 0) :
    (RunTest Spec.metricAlgebra policy pin mesh).detg = Spec.Determinant (readMetric pin) ∧
    (RunTest Spec.metricAlgebra policy pin mesh).result.error = Error.DegenerateMetric ∧
    (RunTest Spec.metricAlgebra policy pin mesh).prim_pt = uninit ∧
    ∃ rest, printed (RunTest Spec.metricAlgebra policy pin mesh).events =
      [failureHeader ++ rest] := by
  have hdeg : Spec.degenerate epsilon (readMetric pin) = true := by
    simp [Spec.degenerate, hdet]
  have hout : (mesh.pmb_pack.pdyngr.ps policy).ConToPrim
      (readCons pin mesh.pmb_pack.pmhd.nscalars).1 (readBu pin) (readMetric pin)
      (Spec.metricAlgebra.InvertMatrix (readMetric pin)
        (Spec.metricAlgebra.GetDeterminant (readMetric pin))) =
      { prim_pt := uninit
        cons_pt := (readCons pin mesh.pmb_pack.pmhd.nscalars).1
        result :=
          { error := Error.DegenerateMetric
            cons_floor := false
            prim_floor := false
            cons_adjusted := false } } := by
    rw [hps]
    simp [Spec.solver, hdeg]
  have hres : (RunTest Spec.metricAlgebra policy pin mesh).result =
      { error := Error.DegenerateMetric
        cons_floor := false
        prim_floor := false
        cons_adjusted := false } := by
    rw [RunTest_result, hout]
  refine ⟨rfl, ?_, ?_, ?_⟩
  · rw [hres]
  · show ((mesh.pmb_pack.pdyngr.ps policy).ConToPrim _ _ _ _).prim_pt = uninit
    rw [hout]
  · refine ⟨"\n" ++ flagLines 0 0 0, ?_⟩
    show [report (RunTest Spec.metricAlgebra policy pin mesh).result] = _
    rw [hres]
    decide

/-- C4 at a concrete input: the metric with all components 0, whose determinant is 0. -/
theorem RunTest_degenerate_metric_witness :
    Spec.Determinant (readMetric zeroMetricInput) ≤ 0 ∧
    (RunTest Spec.metricAlgebra EOSPolicy.IdealGas zeroMetricInput
      (meshOf DynGRMHD_EOS.eos_ideal 0 (Spec.solver 0 quietSolver))).detg =
      Spec.Determinant (readMetric zeroMetricInput) ∧
    (RunTest Spec.metricAlgebra EOSPolicy.IdealGas zeroMetricInput
      (meshOf DynGRMHD_EOS.eos_ideal 0 (Spec.solver 0 quietSolver))).result.error =
      Error.DegenerateMetric ∧
    (RunTest Spec.metricAlgebra EOSPolicy.IdealGas zeroMetricInput
      (meshOf DynGRMHD_EOS.eos_ideal 0 (Spec.solver 0 quietSolver))).prim_pt = uninit ∧
    ∃ rest, printed (RunTest Spec.metricAlgebra EOSPolicy.IdealGas zeroMetricInput
      (meshOf DynGRMHD_EOS.eos_ideal 0 (Spec.solver 0 quietSolver))).events =
      [failureHeader ++ rest] :=
  ⟨le_of_eq zeroMetric_determinant,
    RunTest_degenerate_metric 0 quietSolver EOSPolicy.IdealGas zeroMetricInput
      (meshOf DynGRMHD_EOS.eos_ideal 0 (Spec.solver 0 quietSolver)) rfl
      (le_of_eq zeroMetric_determinant)⟩

end AthenaK
